import Mathlib

/-!
Verification development for the Greek freelancer tax calculator
(`tax_calculator.py`, `config.py`, `models.py`).

The Python code performs all monetary arithmetic on `Decimal`, which is exact
rational arithmetic; we therefore embed every monetary quantity as `ℚ`.
`Decimal.quantize` to two decimal places with `ROUND_HALF_UP` is embedded as
`quantize2`, which rounds half away from zero to two decimal places, exactly
as the `ROUND_HALF_UP` mode does.  The `Decimal` infinity bracket sentinel is embedded
as `Option ℚ` with `none` for infinity.  Python exceptions are embedded with
`Except String`.  The `str.lower` method is embedded as `strLower` (the
frequency strings compared in the code are ASCII).
-/

namespace TaxCalc

/-- Floor of a rational number, computed from its numerator and denominator.
Agrees with `Int.floor` (see `ratFloor_eq_floor`). -/
def ratFloor (x : ℚ) : ℤ := x.num / x.den

/-- Round a rational to the nearest integer, ties away from zero: this is the
integer-valued core of the `ROUND_HALF_UP` rounding mode of `Decimal`. -/
def rhu (x : ℚ) : ℤ := if 0 ≤ x then ratFloor (x + 1/2) else -(ratFloor (-x + 1/2))

/-- Embedding of `Decimal.quantize` to two decimal places with
`ROUND_HALF_UP`: round half away from zero to two decimal places. -/
def quantize2 (x : ℚ) : ℚ := (rhu (100 * x) : ℚ) / 100

/-- A rational that is a whole number of cents, i.e. representable exactly
with two decimal places. -/
def CentMult (x : ℚ) : Prop := ∃ n : ℤ, x = n / 100

/-- Embedding of the `str.lower` method on the ASCII strings used for payment
frequencies. -/
def strLower (s : String) : String := String.mk (s.data.map Char.toLower)

/-- Embedding of `config.TaxBracket`: an upper limit (`none` for
the `Decimal` infinity) and a rate.  The human-readable description carries no
logic and is omitted. -/
structure TaxBracket where
  upper_limit : Option ℚ
  rate : ℚ
deriving DecidableEq

/-- Embedding of `config.INCOME_TAX_BRACKETS` (2024 progressive brackets). -/
def INCOME_TAX_BRACKETS : List TaxBracket :=
  [⟨some 10000, 9/100⟩, ⟨some 20000, 22/100⟩, ⟨some 30000, 28/100⟩,
   ⟨some 40000, 36/100⟩, ⟨none, 44/100⟩]

/-- Embedding of `config.VAT_RATE`, the decimal 0.24. -/
def VAT_RATE : ℚ := 24/100

/-- Embedding of `config.EFKA_MAIN_RATE`, the decimal 0.1333. -/
def EFKA_MAIN_RATE : ℚ := 1333/10000

/-- Embedding of `config.EFKA_ADDITIONAL_RATE`, the decimal 0.0667. -/
def EFKA_ADDITIONAL_RATE : ℚ := 667/10000

/-- Embedding of `config.EFKA_TOTAL_RATE = EFKA_MAIN_RATE + EFKA_ADDITIONAL_RATE`. -/
def EFKA_TOTAL_RATE : ℚ := EFKA_MAIN_RATE + EFKA_ADDITIONAL_RATE

/-- Embedding of `config.VALID_FREQUENCIES`. -/
def VALID_FREQUENCIES : List String := ["monthly", "quarterly", "annual"]

/-- Embedding of `models.BracketBreakdown`.  `bracket_max` is `none` for the
Python string literal `unlimited`. -/
structure BracketBreakdown where
  bracket_min : ℚ
  bracket_max : Option ℚ
  rate : ℚ
  taxable_amount : ℚ
  tax_amount : ℚ
deriving DecidableEq

/-- Embedding of `models.IncomeTaxBreakdown`. -/
structure IncomeTaxBreakdown where
  total_tax : ℚ
  effective_rate : ℚ
  bracket_breakdown : List BracketBreakdown
deriving DecidableEq

/-- Embedding of `models.VATCalculation`. -/
structure VATCalculation where
  vat_amount : ℚ
  rate : ℚ
deriving DecidableEq

/-- Embedding of `models.SocialSecurityCalculation`. -/
structure SocialSecurityCalculation where
  total_contribution : ℚ
  main_insurance : ℚ
  additional_contributions : ℚ
  rate : ℚ
deriving DecidableEq

/-- Embedding of `models.TaxCalculationResult`. -/
structure TaxCalculationResult where
  gross_income : ℚ
  deductible_expenses : ℚ
  taxable_income : ℚ
  income_tax : IncomeTaxBreakdown
  vat : VATCalculation
  social_security : SocialSecurityCalculation
  total_taxes : ℚ
  total_obligations : ℚ
  net_income : ℚ
  effective_total_rate : ℚ
deriving DecidableEq

/-- Embedding of `models.PaymentInstallment`. -/
structure PaymentInstallment where
  period_number : ℕ
  payment_amount : ℚ
deriving DecidableEq

/-- Embedding of `models.PaymentSchedule`. -/
structure PaymentSchedule where
  annual_total : ℚ
  frequency : String
  number_of_installments : ℕ
  installment_amount : ℚ
  schedule : List PaymentInstallment
deriving DecidableEq

/-- Embedding of `tax_calculator.calculate_taxable_income`. -/
def calculate_taxable_income (gross_income deductible_expenses : ℚ) : ℚ :=
  quantize2 (max 0 (gross_income - deductible_expenses))

/-- Embedding of the bracket `for` loop inside
`tax_calculator.calculate_income_tax` (lines 210-239): returns the
full-precision accumulated tax and the list of emitted bracket lines. -/
def bracketLoop : List TaxBracket → ℚ → ℚ → ℚ × List BracketBreakdown
  | [], _, _ => (0, [])
  | b :: rest, remaining_income, previous_bracket_limit =>
    if remaining_income ≤ 0 then (0, [])
    else
      let taxable_in_bracket :=
        match b.upper_limit with
        | none => remaining_income
        | some lim => min remaining_income (lim - previous_bracket_limit)
      let tax_in_bracket := taxable_in_bracket * b.rate
      let next_limit :=
        match b.upper_limit with
        | none => previous_bracket_limit
        | some lim => lim
      let tail := bracketLoop rest (remaining_income - taxable_in_bracket) next_limit
      (tax_in_bracket + tail.1,
        { bracket_min := quantize2 previous_bracket_limit
          bracket_max := b.upper_limit.map quantize2
          rate := quantize2 (b.rate * 100)
          taxable_amount := quantize2 taxable_in_bracket
          tax_amount := quantize2 tax_in_bracket } :: tail.2)

/-- Embedding of `tax_calculator.calculate_income_tax`. -/
def calculate_income_tax (taxable_income : ℚ) : IncomeTaxBreakdown :=
  if taxable_income ≤ 0 then
    { total_tax := 0, effective_rate := 0, bracket_breakdown := [] }
  else
    let p := bracketLoop INCOME_TAX_BRACKETS taxable_income 0
    { total_tax := quantize2 p.1
      effective_rate := quantize2 (p.1 / taxable_income * 100)
      bracket_breakdown := p.2 }

/-- Embedding of `tax_calculator.calculate_vat`. -/
def calculate_vat (gross_income : ℚ) : VATCalculation :=
  if gross_income ≤ 0 then
    { vat_amount := 0, rate := quantize2 (VAT_RATE * 100) }
  else
    { vat_amount := quantize2 (gross_income * VAT_RATE)
      rate := quantize2 (VAT_RATE * 100) }

/-- Embedding of `tax_calculator.calculate_social_security`. -/
def calculate_social_security (gross_income : ℚ) : SocialSecurityCalculation :=
  if gross_income ≤ 0 then
    { total_contribution := 0, main_insurance := 0, additional_contributions := 0
      rate := quantize2 (EFKA_TOTAL_RATE * 100) }
  else
    { total_contribution := quantize2 (gross_income * EFKA_TOTAL_RATE)
      main_insurance := quantize2 (gross_income * EFKA_MAIN_RATE)
      additional_contributions := quantize2 (gross_income * EFKA_ADDITIONAL_RATE)
      rate := quantize2 (EFKA_TOTAL_RATE * 100) }

/-- Embedding of `tax_calculator.calculate_all_taxes`. -/
def calculate_all_taxes (gross_income deductible_expenses : ℚ) : TaxCalculationResult :=
  if gross_income ≤ 0 then
    { gross_income := quantize2 gross_income
      deductible_expenses := quantize2 deductible_expenses
      taxable_income := 0
      income_tax := calculate_income_tax 0
      vat := calculate_vat 0
      social_security := calculate_social_security 0
      total_taxes := 0
      total_obligations := 0
      net_income := 0
      effective_total_rate := 0 }
  else
    let taxable_income := calculate_taxable_income gross_income deductible_expenses
    let income_tax := calculate_income_tax taxable_income
    let vat := calculate_vat gross_income
    let social_security := calculate_social_security gross_income
    let total_taxes := income_tax.total_tax + social_security.total_contribution
    let total_obligations := total_taxes + vat.vat_amount
    let net_income := gross_income - total_taxes
    let effective_total_rate := total_taxes / gross_income * 100
    { gross_income := quantize2 gross_income
      deductible_expenses := quantize2 deductible_expenses
      taxable_income := taxable_income
      income_tax := income_tax
      vat := vat
      social_security := social_security
      total_taxes := quantize2 total_taxes
      total_obligations := quantize2 total_obligations
      net_income := quantize2 net_income
      effective_total_rate := quantize2 effective_total_rate }

/-- The `ValueError` message raised by
`tax_calculator.calculate_payment_schedule` for an invalid frequency. -/
def invalidFrequencyMessage (frequency : String) : String :=
  "Invalid frequency \x27" ++ frequency ++ "\x27. Must be one of: " ++
    String.intercalate ", " VALID_FREQUENCIES

/-- Embedding of the `payments_per_year` dictionary lookup in
`tax_calculator.calculate_payment_schedule`, applied to an already
lower-cased valid frequency. -/
def paymentsPerYear (frequency : String) : ℕ :=
  if frequency = "monthly" then 12 else if frequency = "quarterly" then 4 else 1

/-- Embedding of `tax_calculator.calculate_payment_schedule`; the raised
`ValueError` becomes `Except.error` carrying the message. -/
def calculate_payment_schedule (annual_tax : ℚ) (frequency : String) :
    Except String PaymentSchedule :=
  let annual := if annual_tax < 0 then 0 else annual_tax
  if strLower frequency ∈ VALID_FREQUENCIES then
    let freq := strLower frequency
    let num_payments := paymentsPerYear freq
    let payment_amount := annual / (num_payments : ℚ)
    Except.ok
      { annual_total := quantize2 annual
        frequency := freq
        number_of_installments := num_payments
        installment_amount := quantize2 payment_amount
        schedule := (List.range num_payments).map
          (fun i => { period_number := i + 1, payment_amount := quantize2 payment_amount }) }
  else
    Except.error (invalidFrequencyMessage frequency)

/-!
Serialization model.  The `to_dict` methods in `models.py` turn every
`Decimal` field into its string representation and `from_dict` parses it back
with `Decimal(str(...))`; this string round trip is value-exact, so the
serialized form of a decimal field is modelled by its exact rational value.
Dictionary keys become structure fields of the `...Dict` structures below.
`bracket_max` is serialized as either a decimal string or the literal string
`unlimited`; the two cases are modelled by `Option ℚ` with `none` for
`unlimited`, in both the model and its dictionary form.
-/

/-- Dictionary form produced by `models.BracketBreakdown.to_dict`. -/
structure BracketBreakdownDict where
  bracket_min : ℚ
  bracket_max : Option ℚ
  rate : ℚ
  taxable_amount : ℚ
  tax_amount : ℚ
deriving DecidableEq

/-- Dictionary form produced by `models.IncomeTaxBreakdown.to_dict`. -/
structure IncomeTaxBreakdownDict where
  total_tax : ℚ
  effective_rate : ℚ
  bracket_breakdown : List BracketBreakdownDict
deriving DecidableEq

/-- Dictionary form produced by `models.VATCalculation.to_dict`. -/
structure VATCalculationDict where
  vat_amount : ℚ
  rate : ℚ
deriving DecidableEq

/-- Dictionary form produced by `models.SocialSecurityCalculation.to_dict`. -/
structure SocialSecurityCalculationDict where
  total_contribution : ℚ
  main_insurance : ℚ
  additional_contributions : ℚ
  rate : ℚ
deriving DecidableEq

/-- Dictionary form produced by `models.TaxCalculationResult.to_dict`. -/
structure TaxCalculationResultDict where
  gross_income : ℚ
  deductible_expenses : ℚ
  taxable_income : ℚ
  income_tax : IncomeTaxBreakdownDict
  vat : VATCalculationDict
  social_security : SocialSecurityCalculationDict
  total_taxes : ℚ
  total_obligations : ℚ
  net_income : ℚ
  effective_total_rate : ℚ
deriving DecidableEq

/-- Embedding of `models.BracketBreakdown.to_dict`. -/
def BracketBreakdown.to_dict (b : BracketBreakdown) : BracketBreakdownDict :=
  { bracket_min := b.bracket_min
    bracket_max := b.bracket_max
    rate := b.rate
    taxable_amount := b.taxable_amount
    tax_amount := b.tax_amount }

/-- Embedding of `models.BracketBreakdown.from_dict` (the `unlimited`
sentinel is the `none` case of `bracket_max`). -/
def BracketBreakdown.from_dict (d : BracketBreakdownDict) : BracketBreakdown :=
  { bracket_min := d.bracket_min
    bracket_max := d.bracket_max
    rate := d.rate
    taxable_amount := d.taxable_amount
    tax_amount := d.tax_amount }

/-- Embedding of `models.IncomeTaxBreakdown.to_dict`. -/
def IncomeTaxBreakdown.to_dict (t : IncomeTaxBreakdown) : IncomeTaxBreakdownDict :=
  { total_tax := t.total_tax
    effective_rate := t.effective_rate
    bracket_breakdown := t.bracket_breakdown.map BracketBreakdown.to_dict }

/-- Embedding of `models.IncomeTaxBreakdown.from_dict`. -/
def IncomeTaxBreakdown.from_dict (d : IncomeTaxBreakdownDict) : IncomeTaxBreakdown :=
  { total_tax := d.total_tax
    effective_rate := d.effective_rate
    bracket_breakdown := d.bracket_breakdown.map BracketBreakdown.from_dict }

/-- Embedding of `models.VATCalculation.to_dict`. -/
def VATCalculation.to_dict (v : VATCalculation) : VATCalculationDict :=
  { vat_amount := v.vat_amount, rate := v.rate }

/-- Embedding of `models.VATCalculation.from_dict`. -/
def VATCalculation.from_dict (d : VATCalculationDict) : VATCalculation :=
  { vat_amount := d.vat_amount, rate := d.rate }

/-- Embedding of `models.SocialSecurityCalculation.to_dict`. -/
def SocialSecurityCalculation.to_dict (s : SocialSecurityCalculation) :
    SocialSecurityCalculationDict :=
  { total_contribution := s.total_contribution
    main_insurance := s.main_insurance
    additional_contributions := s.additional_contributions
    rate := s.rate }

/-- Embedding of `models.SocialSecurityCalculation.from_dict`. -/
def SocialSecurityCalculation.from_dict (d : SocialSecurityCalculationDict) :
    SocialSecurityCalculation :=
  { total_contribution := d.total_contribution
    main_insurance := d.main_insurance
    additional_contributions := d.additional_contributions
    rate := d.rate }

/-- Embedding of `models.TaxCalculationResult.to_dict`. -/
def TaxCalculationResult.to_dict (r : TaxCalculationResult) : TaxCalculationResultDict :=
  { gross_income := r.gross_income
    deductible_expenses := r.deductible_expenses
    taxable_income := r.taxable_income
    income_tax := r.income_tax.to_dict
    vat := r.vat.to_dict
    social_security := r.social_security.to_dict
    total_taxes := r.total_taxes
    total_obligations := r.total_obligations
    net_income := r.net_income
    effective_total_rate := r.effective_total_rate }

/-- Embedding of `models.TaxCalculationResult.from_dict`. -/
def TaxCalculationResult.from_dict (d : TaxCalculationResultDict) : TaxCalculationResult :=
  { gross_income := d.gross_income
    deductible_expenses := d.deductible_expenses
    taxable_income := d.taxable_income
    income_tax := IncomeTaxBreakdown.from_dict d.income_tax
    vat := VATCalculation.from_dict d.vat
    social_security := SocialSecurityCalculation.from_dict d.social_security
    total_taxes := d.total_taxes
    total_obligations := d.total_obligations
    net_income := d.net_income
    effective_total_rate := d.effective_total_rate }

/-- Strict ascent of bracket upper limits starting from a given lower bound,
with all finite limits whole numbers of cents: the shape guaranteed for
`INCOME_TAX_BRACKETS` by `config.validate_configuration`. -/
def GoodFrom : ℚ → List TaxBracket → Prop
  | _, [] => True
  | p, b :: rest =>
    match b.upper_limit with
    | none => GoodFrom p rest
    | some lim => p ≤ lim ∧ CentMult lim ∧ GoodFrom lim rest

/-- The bracket list contains an unbounded (infinite upper limit) bracket,
as `config.validate_configuration` requires of the last bracket. -/
def ContainsUnbounded (bs : List TaxBracket) : Prop :=
  ∃ b ∈ bs, b.upper_limit = none

/-- Sum of the `taxable_amount` fields over a list of bracket lines. -/
def sumTaxable (l : List BracketBreakdown) : ℚ :=
  (l.map (fun b => b.taxable_amount)).sum

theorem ratFloor_eq_floor (x : ℚ) : ratFloor x = ⌊x⌋ := by
  rw [Rat.floor_def]; rfl

theorem rhu_eq_floor (x : ℚ) (h : 0 ≤ x) : rhu x = ⌊x + 1/2⌋ := by
  rw [rhu, if_pos h, ratFloor_eq_floor]

theorem rhu_le_of_nonneg (x : ℚ) (h : 0 ≤ x) : (rhu x : ℚ) ≤ x + 1/2 := by
  rw [rhu_eq_floor x h]; exact Int.floor_le _

theorem lt_rhu_of_nonneg (x : ℚ) (h : 0 ≤ x) : x - 1/2 < (rhu x : ℚ) := by
  rw [rhu_eq_floor x h]
  have := Int.sub_one_lt_floor (x + 1/2)
  linarith

theorem rhu_mono_nonneg {x y : ℚ} (hx : 0 ≤ x) (hxy : x ≤ y) : rhu x ≤ rhu y := by
  rw [rhu_eq_floor x hx, rhu_eq_floor y (le_trans hx hxy)]
  exact Int.floor_mono (by linarith)

theorem rhu_intCast (n : ℤ) : rhu (n : ℚ) = n := by
  have hhalf : ⌊(1/2 : ℚ)⌋ = 0 := Int.floor_eq_iff.mpr (by norm_num)
  rcases le_or_lt 0 n with h | h
  · have h0 : (0:ℚ) ≤ (n:ℚ) := by exact_mod_cast h
    rw [rhu_eq_floor _ h0, Int.floor_int_add, hhalf, add_zero]
  · have h0 : ¬ (0:ℚ) ≤ (n:ℚ) := by
      push_neg; exact_mod_cast h
    rw [rhu, if_neg h0, ratFloor_eq_floor]
    have hcast : -(n:ℚ) = ((-n : ℤ) : ℚ) := (Int.cast_neg n).symm
    rw [hcast, Int.floor_int_add, hhalf, add_zero, neg_neg]

theorem quantize2_intCast (n : ℤ) : quantize2 (n : ℚ) = n := by
  have h : (100:ℚ) * (n:ℚ) = ((100 * n : ℤ) : ℚ) := by push_cast; ring
  rw [quantize2, h, rhu_intCast]
  push_cast
  ring

theorem CentMult.quantize2_eq {x : ℚ} (h : CentMult x) : quantize2 x = x := by
  obtain ⟨n, rfl⟩ := h
  have h100 : (100:ℚ) * ((n:ℚ) / 100) = (n:ℚ) := by field_simp
  rw [quantize2, h100, rhu_intCast]

theorem centMult_of_mul100 {x : ℚ} (n : ℤ) (h : x * 100 = (n:ℚ)) : CentMult x :=
  ⟨n, by rw [eq_div_iff (by norm_num : (100:ℚ) ≠ 0)]; exact h⟩

theorem centMult_sub {x y : ℚ} (hx : CentMult x) (hy : CentMult y) : CentMult (x - y) := by
  obtain ⟨m, rfl⟩ := hx
  obtain ⟨n, rfl⟩ := hy
  exact ⟨m - n, by push_cast; ring⟩

theorem quantize2_mono_nonneg {x y : ℚ} (hx : 0 ≤ x) (hxy : x ≤ y) :
    quantize2 x ≤ quantize2 y := by
  have : rhu (100 * x) ≤ rhu (100 * y) := rhu_mono_nonneg (by linarith) (by linarith)
  have hc : ((rhu (100 * x) : ℚ)) ≤ ((rhu (100 * y) : ℚ)) := by exact_mod_cast this
  rw [quantize2, quantize2]
  linarith

theorem abs_quantize2_sub_nonneg (x : ℚ) (h : 0 ≤ x) : |quantize2 x - x| ≤ 1/200 := by
  have h100 : (0:ℚ) ≤ 100 * x := by linarith
  have h1 := rhu_le_of_nonneg (100 * x) h100
  have h2 := lt_rhu_of_nonneg (100 * x) h100
  rw [quantize2, abs_le]
  constructor <;> linarith

theorem quantize2_eq_of_bounds (x : ℚ) (n : ℤ) (h0 : 0 ≤ x)
    (h1 : (n:ℚ) ≤ 100 * x + 1/2) (h2 : 100 * x + 1/2 < (n:ℚ) + 1) :
    quantize2 x = (n:ℚ) / 100 := by
  have hr : rhu (100 * x) = n := by
    rw [rhu_eq_floor _ (by linarith)]
    exact Int.floor_eq_iff.mpr ⟨h1, by linarith⟩
  rw [quantize2, hr]

theorem quantize2_add_sub_bound (x y : ℚ) (hx : 0 ≤ x) (hy : 0 ≤ y) :
    |quantize2 x + quantize2 y - quantize2 (x + y)| ≤ 1/100 := by
  have hxy : 0 ≤ x + y := add_nonneg hx hy
  have b1 := rhu_le_of_nonneg (100 * x) (by linarith)
  have b2 := lt_rhu_of_nonneg (100 * x) (by linarith)
  have b3 := rhu_le_of_nonneg (100 * y) (by linarith)
  have b4 := lt_rhu_of_nonneg (100 * y) (by linarith)
  have b5 := rhu_le_of_nonneg (100 * (x + y)) (by linarith)
  have b6 := lt_rhu_of_nonneg (100 * (x + y)) (by linarith)
  set k : ℤ := rhu (100 * x) + rhu (100 * y) - rhu (100 * (x + y)) with hk
  have hkq : ((k:ℚ)) = (rhu (100 * x) : ℚ) + (rhu (100 * y) : ℚ) - (rhu (100 * (x + y)) : ℚ) := by
    rw [hk]; push_cast; ring
  have hk1 : (k:ℚ) < 3/2 := by rw [hkq]; linarith
  have hk2 : (-3/2 : ℚ) < (k:ℚ) := by rw [hkq]; linarith
  have hk1i : k ≤ 1 := by
    by_contra hc
    push_neg at hc
    have hi : 2 ≤ k := by omega
    have : (2:ℚ) ≤ (k:ℚ) := by exact_mod_cast hi
    linarith
  have hk2i : -1 ≤ k := by
    by_contra hc
    push_neg at hc
    have hi : k ≤ -2 := by omega
    have : (k:ℚ) ≤ -2 := by exact_mod_cast hi
    linarith
  have hexpr : quantize2 x + quantize2 y - quantize2 (x + y) = (k:ℚ) / 100 := by
    simp only [quantize2]
    rw [hkq]
    ring
  have hc1 : ((k:ℚ)) ≤ 1 := by exact_mod_cast hk1i
  have hc2 : (-1:ℚ) ≤ (k:ℚ) := by exact_mod_cast hk2i
  rw [hexpr, abs_le]
  constructor <;> linarith

theorem bracketLoop_zero (bs : List TaxBracket) (p : ℚ) : bracketLoop bs 0 p = (0, []) := by
  cases bs with
  | nil => rfl
  | cons b rest => simp [bracketLoop]

theorem bracketLoop_cons_some (lim rate : ℚ) (rest : List TaxBracket) (r p : ℚ)
    (hr : ¬ r ≤ 0) :
    bracketLoop (⟨some lim, rate⟩ :: rest) r p =
      (min r (lim - p) * rate + (bracketLoop rest (r - min r (lim - p)) lim).1,
        { bracket_min := quantize2 p
          bracket_max := some (quantize2 lim)
          rate := quantize2 (rate * 100)
          taxable_amount := quantize2 (min r (lim - p))
          tax_amount := quantize2 (min r (lim - p) * rate) }
          :: (bracketLoop rest (r - min r (lim - p)) lim).2) := by
  simp [bracketLoop, hr]

theorem bracketLoop_cons_none (rate : ℚ) (rest : List TaxBracket) (r p : ℚ)
    (hr : ¬ r ≤ 0) :
    bracketLoop (⟨none, rate⟩ :: rest) r p =
      (r * rate + (bracketLoop rest (r - r) p).1,
        { bracket_min := quantize2 p
          bracket_max := none
          rate := quantize2 (rate * 100)
          taxable_amount := quantize2 r
          tax_amount := quantize2 (r * rate) }
          :: (bracketLoop rest (r - r) p).2) := by
  simp [bracketLoop, hr]

theorem bracketLoop_fst_nonneg :
    ∀ (bs : List TaxBracket) (r p : ℚ), (∀ b ∈ bs, 0 ≤ b.rate) → GoodFrom p bs →
      0 ≤ (bracketLoop bs r p).1 := by
  intro bs
  induction bs with
  | nil => intro r p _ _; simp [bracketLoop]
  | cons b rest ih =>
    intro r p hrates hg
    by_cases hr : r ≤ 0
    · simp [bracketLoop, hr]
    · have hr0 : 0 < r := lt_of_not_le hr
      have hrate : 0 ≤ b.rate := hrates b (List.mem_cons_self b rest)
      have hrates' : ∀ x ∈ rest, 0 ≤ x.rate := fun x hx => hrates x (List.mem_cons_of_mem b hx)
      obtain ⟨ul, rate⟩ := b
      cases ul with
      | none =>
        rw [bracketLoop_cons_none rate rest r p hr]
        have htail := ih (r - r) p hrates' hg
        exact add_nonneg (mul_nonneg hr0.le hrate) htail
      | some lim =>
        obtain ⟨hpl, _, hgrest⟩ := hg
        rw [bracketLoop_cons_some lim rate rest r p hr]
        have hmin : 0 ≤ min r (lim - p) := le_min hr0.le (by linarith)
        have htail := ih (r - min r (lim - p)) lim hrates' hgrest
        exact add_nonneg (mul_nonneg hmin hrate) htail

theorem bracketLoop_fst_mono :
    ∀ (bs : List TaxBracket) (p a b : ℚ), (∀ x ∈ bs, 0 ≤ x.rate) → GoodFrom p bs →
      a ≤ b → (bracketLoop bs a p).1 ≤ (bracketLoop bs b p).1 := by
  intro bs
  induction bs with
  | nil => intro p a b _ _ _; simp [bracketLoop]
  | cons bk rest ih =>
    intro p a b hrates hg hab
    by_cases ha : a ≤ 0
    · have h1 : (bracketLoop (bk :: rest) a p).1 = 0 := by simp [bracketLoop, ha]
      rw [h1]
      exact bracketLoop_fst_nonneg (bk :: rest) b p hrates hg
    · have hb : ¬ b ≤ 0 := fun hb0 => ha (le_trans hab hb0)
      have hrate : 0 ≤ bk.rate := hrates bk (List.mem_cons_self bk rest)
      have hrates' : ∀ x ∈ rest, 0 ≤ x.rate := fun x hx => hrates x (List.mem_cons_of_mem bk hx)
      obtain ⟨ul, rate⟩ := bk
      cases ul with
      | none =>
        rw [bracketLoop_cons_none rate rest a p ha, bracketLoop_cons_none rate rest b p hb]
        have htail : (bracketLoop rest (a - a) p).1 ≤ (bracketLoop rest (b - b) p).1 := by
          rw [sub_self, sub_self]
        have := mul_le_mul_of_nonneg_right hab hrate
        simp only []
        linarith
      | some lim =>
        obtain ⟨hpl, _, hgrest⟩ := hg
        rw [bracketLoop_cons_some lim rate rest a p ha, bracketLoop_cons_some lim rate rest b p hb]
        have hminle : min a (lim - p) ≤ min b (lim - p) := min_le_min hab le_rfl
        have hmul := mul_le_mul_of_nonneg_right hminle hrate
        have hsub : a - min a (lim - p) ≤ b - min b (lim - p) := by
          rcases le_total a (lim - p) with h1 | h1 <;> rcases le_total b (lim - p) with h2 | h2
          · rw [min_eq_left h1, min_eq_left h2]; linarith
          · rw [min_eq_left h1, min_eq_right h2]; linarith
          · rw [min_eq_right h1, min_eq_left h2]; linarith
          · rw [min_eq_right h1, min_eq_right h2]; linarith
        have htail := ih lim (a - min a (lim - p)) (b - min b (lim - p)) hrates' hgrest hsub
        simp only []
        linarith

theorem sumTaxable_nil : sumTaxable [] = 0 := rfl

theorem sumTaxable_cons (x : BracketBreakdown) (l : List BracketBreakdown) :
    sumTaxable (x :: l) = x.taxable_amount + sumTaxable l := by
  simp [sumTaxable]

theorem bracketLoop_sumTaxable :
    ∀ (bs : List TaxBracket) (r p : ℚ), GoodFrom p bs → ContainsUnbounded bs →
      CentMult p → CentMult r → 0 < r → sumTaxable (bracketLoop bs r p).2 = r := by
  intro bs
  induction bs with
  | nil =>
    intro r p _ hu _ _ _
    obtain ⟨b, hb, _⟩ := hu
    exact absurd hb (List.not_mem_nil b)
  | cons bk rest ih =>
    intro r p hg hu hcp hcr hr0
    have hr : ¬ r ≤ 0 := not_le.mpr hr0
    obtain ⟨ul, rate⟩ := bk
    cases ul with
    | none =>
      rw [bracketLoop_cons_none rate rest r p hr, sub_self, bracketLoop_zero,
        sumTaxable_cons, sumTaxable_nil, CentMult.quantize2_eq hcr, add_zero]
    | some lim =>
      obtain ⟨hpl, hclim, hgrest⟩ := hg
      have hcs : CentMult (lim - p) := centMult_sub hclim hcp
      rw [bracketLoop_cons_some lim rate rest r p hr]
      rcases le_or_lt r (lim - p) with hrs | hrs
      · rw [min_eq_left hrs, sub_self, bracketLoop_zero, sumTaxable_cons, sumTaxable_nil,
          CentMult.quantize2_eq hcr, add_zero]
      · have hmin : min r (lim - p) = lim - p := min_eq_right hrs.le
        have hurest : ContainsUnbounded rest := by
          obtain ⟨b, hb, hbn⟩ := hu
          rcases List.mem_cons.mp hb with rfl | hbr
          · exact absurd hbn (by simp)
          · exact ⟨b, hbr, hbn⟩
        have hcr' : CentMult (r - (lim - p)) := centMult_sub hcr hcs
        have htail := ih (r - (lim - p)) lim hgrest hurest hclim hcr' (by linarith)
        rw [hmin, sumTaxable_cons, htail, CentMult.quantize2_eq hcs]
        ring

theorem goodFrom_brackets : GoodFrom 0 INCOME_TAX_BRACKETS :=
  ⟨by norm_num, ⟨1000000, by norm_num⟩,
    by norm_num, ⟨2000000, by norm_num⟩,
    by norm_num, ⟨3000000, by norm_num⟩,
    by norm_num, ⟨4000000, by norm_num⟩, trivial⟩

theorem rates_nonneg_brackets : ∀ b ∈ INCOME_TAX_BRACKETS, 0 ≤ b.rate := by
  intro b hb
  simp only [INCOME_TAX_BRACKETS, List.mem_cons, List.not_mem_nil, or_false] at hb
  rcases hb with rfl | rfl | rfl | rfl | rfl <;> norm_num

theorem containsUnbounded_brackets : ContainsUnbounded INCOME_TAX_BRACKETS :=
  ⟨⟨none, 44/100⟩, by simp [INCOME_TAX_BRACKETS], rfl⟩

/-- C2 (amended): for every taxable income strictly greater than 0 that is a
whole number of cents, the sum of the `taxable_amount` fields over all bracket
lines in the breakdown returned by `calculate_income_tax` equals the taxable
income.  (For inputs with more than two decimal places the per-line rounding
breaks exact additivity; see the counterexample.) -/
theorem claim2_bracket_additivity_cents (ti : ℚ) (h0 : 0 < ti) (hc : CentMult ti) :
    sumTaxable (calculate_income_tax ti).bracket_breakdown = ti := by
  have hn : ¬ ti ≤ 0 := not_le.mpr h0
  unfold calculate_income_tax
  rw [if_neg hn]
  exact bracketLoop_sumTaxable INCOME_TAX_BRACKETS ti 0 goodFrom_brackets
    containsUnbounded_brackets ⟨0, by norm_num⟩ hc h0

/-- Witness for C2 at taxable income 15000. -/
theorem claim2_witness :
    0 < (15000:ℚ) ∧ CentMult 15000 ∧
      sumTaxable (calculate_income_tax 15000).bracket_breakdown = 15000 :=
  ⟨by norm_num, ⟨1500000, by norm_num⟩,
    claim2_bracket_additivity_cents 15000 (by norm_num) ⟨1500000, by norm_num⟩⟩

/-- C2 counterexample: at taxable income 0.001 (more than two decimal places,
allowed by the spec) the single emitted bracket line has `taxable_amount`
rounded to 0.00, so the sum of `taxable_amount` fields is 0, not 0.001. -/
theorem claim2_counterexample :
    ¬ sumTaxable (calculate_income_tax (1/1000)).bracket_breakdown = 1/1000 := by
  have hn : ¬ (1/1000 : ℚ) ≤ 0 := by norm_num
  have hmin : min (1/1000 : ℚ) (10000 - 0) = 1/1000 := min_eq_left (by norm_num)
  have hq : quantize2 (1/1000 : ℚ) = 0 := by
    have h := quantize2_eq_of_bounds (1/1000) 0 (by norm_num) (by norm_num) (by norm_num)
    simpa using h
  unfold calculate_income_tax
  rw [if_neg hn]
  have hloop : bracketLoop INCOME_TAX_BRACKETS (1/1000) 0 =
      (1/1000 * (9/100),
        [{ bracket_min := quantize2 0
           bracket_max := some (quantize2 10000)
           rate := quantize2 (9/100 * 100)
           taxable_amount := quantize2 (1/1000)
           tax_amount := quantize2 (1/1000 * (9/100)) }]) := by
    show bracketLoop (⟨some 10000, 9/100⟩ :: _) (1/1000) 0 = _
    rw [bracketLoop_cons_some _ _ _ _ _ hn, hmin, sub_self, bracketLoop_zero]
    simp
  rw [hloop]
  simp only [sumTaxable_cons, sumTaxable_nil, hq]
  norm_num

/-- C3: income tax is monotone: for all taxable incomes `a` and `b` with
`0 ≤ a < b`, the total tax at `a` is at most the total tax at `b`. -/
theorem claim3_income_tax_monotone (a b : ℚ) (h0 : 0 ≤ a) (hab : a < b) :
    (calculate_income_tax a).total_tax ≤ (calculate_income_tax b).total_tax := by
  have hbpos : 0 < b := lt_of_le_of_lt h0 hab
  have hb : ¬ b ≤ 0 := not_le.mpr hbpos
  by_cases ha : a ≤ 0
  · unfold calculate_income_tax
    rw [if_pos ha, if_neg hb]
    show (0:ℚ) ≤ quantize2 (bracketLoop INCOME_TAX_BRACKETS b 0).1
    have hnn := bracketLoop_fst_nonneg INCOME_TAX_BRACKETS b 0
      rates_nonneg_brackets goodFrom_brackets
    have h := quantize2_mono_nonneg le_rfl hnn
    rwa [CentMult.quantize2_eq ⟨0, by norm_num⟩] at h
  · unfold calculate_income_tax
    rw [if_neg ha, if_neg hb]
    show quantize2 (bracketLoop INCOME_TAX_BRACKETS a 0).1 ≤
      quantize2 (bracketLoop INCOME_TAX_BRACKETS b 0).1
    exact quantize2_mono_nonneg
      (bracketLoop_fst_nonneg INCOME_TAX_BRACKETS a 0 rates_nonneg_brackets goodFrom_brackets)
      (bracketLoop_fst_mono INCOME_TAX_BRACKETS 0 a b rates_nonneg_brackets
        goodFrom_brackets hab.le)

/-- Witness for C3 at taxable incomes 12000 and 18000. -/
theorem claim3_witness :
    0 ≤ (12000:ℚ) ∧ (12000:ℚ) < 18000 ∧
      (calculate_income_tax 12000).total_tax ≤ (calculate_income_tax 18000).total_tax :=
  ⟨by norm_num, by norm_num,
    claim3_income_tax_monotone 12000 18000 (by norm_num) (by norm_num)⟩

/-- C4: for a fixed gross income, varying deductible expenses never changes
the VAT amount or the social-security total contribution. -/
theorem claim4_gross_basis_invariant (g e1 e2 : ℚ) :
    (calculate_all_taxes g e1).vat.vat_amount = (calculate_all_taxes g e2).vat.vat_amount ∧
    (calculate_all_taxes g e1).social_security.total_contribution =
      (calculate_all_taxes g e2).social_security.total_contribution := by
  by_cases hg : g ≤ 0 <;> simp [calculate_all_taxes, hg]

theorem bracket_list_roundtrip (l : List BracketBreakdown) :
    (l.map BracketBreakdown.to_dict).map BracketBreakdown.from_dict = l := by
  induction l with
  | nil => rfl
  | cons x xs ih =>
    simp only [List.map_cons]
    rw [ih]
    rfl

theorem bracket_list_roundtrip_comp (l : List BracketBreakdown) :
    l.map (BracketBreakdown.from_dict ∘ BracketBreakdown.to_dict) = l := by
  rw [← List.map_map, bracket_list_roundtrip]

theorem result_roundtrip (r : TaxCalculationResult) :
    TaxCalculationResult.from_dict (TaxCalculationResult.to_dict r) = r := by
  obtain ⟨a1, a2, a3, it, v, ss, a4, a5, a6, a7⟩ := r
  obtain ⟨t1, t2, bb⟩ := it
  simp [TaxCalculationResult.to_dict, TaxCalculationResult.from_dict,
    IncomeTaxBreakdown.to_dict, IncomeTaxBreakdown.from_dict,
    VATCalculation.to_dict, VATCalculation.from_dict,
    SocialSecurityCalculation.to_dict, SocialSecurityCalculation.from_dict,
    bracket_list_roundtrip, bracket_list_roundtrip_comp]

/-- C9: serializing any result of `calculate_all_taxes` with `to_dict` and
reconstructing it with `from_dict` yields a field-for-field equal result,
including every nested bracket line and the VAT and social-security
components. -/
theorem claim9_roundtrip (g e : ℚ) :
    TaxCalculationResult.from_dict (TaxCalculationResult.to_dict (calculate_all_taxes g e)) =
      calculate_all_taxes g e :=
  result_roundtrip (calculate_all_taxes g e)

/-- C1: the concrete scenario gross = 60000, expenses = 10000: taxable income
50000.00, income tax 13900.00 with all five brackets producing a bracket line,
social security total 12000.00, VAT 14400.00, total taxes 25900.00 and
net income 34100.00. -/
theorem claim1_concrete_scenario :
    (calculate_all_taxes 60000 10000).taxable_income = 50000 ∧
    (calculate_all_taxes 60000 10000).income_tax.total_tax = 13900 ∧
    (calculate_all_taxes 60000 10000).income_tax.bracket_breakdown =
      [⟨0, some 10000, 9, 10000, 900⟩,
       ⟨10000, some 20000, 22, 10000, 2200⟩,
       ⟨20000, some 30000, 28, 10000, 2800⟩,
       ⟨30000, some 40000, 36, 10000, 3600⟩,
       ⟨40000, none, 44, 10000, 4400⟩] ∧
    (calculate_all_taxes 60000 10000).social_security.total_contribution = 12000 ∧
    (calculate_all_taxes 60000 10000).vat.vat_amount = 14400 ∧
    (calculate_all_taxes 60000 10000).total_taxes = 25900 ∧
    (calculate_all_taxes 60000 10000).net_income = 34100 := by
  have hq0 : quantize2 (0:ℚ) = 0 := CentMult.quantize2_eq ⟨0, by norm_num⟩
  have hq9 : quantize2 (9:ℚ) = 9 := by exact_mod_cast quantize2_intCast 9
  have hq22 : quantize2 (22:ℚ) = 22 := by exact_mod_cast quantize2_intCast 22
  have hq28 : quantize2 (28:ℚ) = 28 := by exact_mod_cast quantize2_intCast 28
  have hq36 : quantize2 (36:ℚ) = 36 := by exact_mod_cast quantize2_intCast 36
  have hq44 : quantize2 (44:ℚ) = 44 := by exact_mod_cast quantize2_intCast 44
  have hq900 : quantize2 (900:ℚ) = 900 := by exact_mod_cast quantize2_intCast 900
  have hq2200 : quantize2 (2200:ℚ) = 2200 := by exact_mod_cast quantize2_intCast 2200
  have hq2800 : quantize2 (2800:ℚ) = 2800 := by exact_mod_cast quantize2_intCast 2800
  have hq3600 : quantize2 (3600:ℚ) = 3600 := by exact_mod_cast quantize2_intCast 3600
  have hq4400 : quantize2 (4400:ℚ) = 4400 := by exact_mod_cast quantize2_intCast 4400
  have hq10000 : quantize2 (10000:ℚ) = 10000 := by exact_mod_cast quantize2_intCast 10000
  have hq20000 : quantize2 (20000:ℚ) = 20000 := by exact_mod_cast quantize2_intCast 20000
  have hq30000 : quantize2 (30000:ℚ) = 30000 := by exact_mod_cast quantize2_intCast 30000
  have hq40000 : quantize2 (40000:ℚ) = 40000 := by exact_mod_cast quantize2_intCast 40000
  have hq50000 : quantize2 (50000:ℚ) = 50000 := by exact_mod_cast quantize2_intCast 50000
  have hq12000 : quantize2 (12000:ℚ) = 12000 := by exact_mod_cast quantize2_intCast 12000
  have hq13900 : quantize2 (13900:ℚ) = 13900 := by exact_mod_cast quantize2_intCast 13900
  have hq14400 : quantize2 (14400:ℚ) = 14400 := by exact_mod_cast quantize2_intCast 14400
  have hq25900 : quantize2 (25900:ℚ) = 25900 := by exact_mod_cast quantize2_intCast 25900
  have hq34100 : quantize2 (34100:ℚ) = 34100 := by exact_mod_cast quantize2_intCast 34100
  have e5 : bracketLoop [⟨none, 44/100⟩] 10000 40000 =
      (4400, [⟨40000, none, 44, 10000, 4400⟩]) := by
    rw [bracketLoop_cons_none _ _ _ _ (by norm_num), sub_self, bracketLoop_zero]
    norm_num [hq40000, hq44, hq10000, hq4400]
  have e4 : bracketLoop [⟨some 40000, 36/100⟩, ⟨none, 44/100⟩] 20000 30000 =
      (8000, [⟨30000, some 40000, 36, 10000, 3600⟩, ⟨40000, none, 44, 10000, 4400⟩]) := by
    rw [bracketLoop_cons_some _ _ _ _ _ (by norm_num)]
    rw [show min (20000:ℚ) (40000 - 30000) = 10000 from by norm_num]
    rw [show (20000:ℚ) - 10000 = 10000 from by norm_num]
    rw [e5]
    norm_num [hq30000, hq40000, hq36, hq10000, hq3600]
  have e3 : bracketLoop [⟨some 30000, 28/100⟩, ⟨some 40000, 36/100⟩, ⟨none, 44/100⟩]
      30000 20000 =
      (10800, [⟨20000, some 30000, 28, 10000, 2800⟩, ⟨30000, some 40000, 36, 10000, 3600⟩,
        ⟨40000, none, 44, 10000, 4400⟩]) := by
    rw [bracketLoop_cons_some _ _ _ _ _ (by norm_num)]
    rw [show min (30000:ℚ) (30000 - 20000) = 10000 from by norm_num]
    rw [show (30000:ℚ) - 10000 = 20000 from by norm_num]
    rw [e4]
    norm_num [hq20000, hq30000, hq28, hq10000, hq2800]
  have e2 : bracketLoop [⟨some 20000, 22/100⟩, ⟨some 30000, 28/100⟩, ⟨some 40000, 36/100⟩,
      ⟨none, 44/100⟩] 40000 10000 =
      (13000, [⟨10000, some 20000, 22, 10000, 2200⟩, ⟨20000, some 30000, 28, 10000, 2800⟩,
        ⟨30000, some 40000, 36, 10000, 3600⟩, ⟨40000, none, 44, 10000, 4400⟩]) := by
    rw [bracketLoop_cons_some _ _ _ _ _ (by norm_num)]
    rw [show min (40000:ℚ) (20000 - 10000) = 10000 from by norm_num]
    rw [show (40000:ℚ) - 10000 = 30000 from by norm_num]
    rw [e3]
    norm_num [hq10000, hq20000, hq22, hq2200]
  have e1 : bracketLoop INCOME_TAX_BRACKETS 50000 0 =
      (13900, [⟨0, some 10000, 9, 10000, 900⟩, ⟨10000, some 20000, 22, 10000, 2200⟩,
        ⟨20000, some 30000, 28, 10000, 2800⟩, ⟨30000, some 40000, 36, 10000, 3600⟩,
        ⟨40000, none, 44, 10000, 4400⟩]) := by
    show bracketLoop (⟨some 10000, 9/100⟩ :: _) 50000 0 = _
    rw [bracketLoop_cons_some _ _ _ _ _ (by norm_num)]
    rw [show min (50000:ℚ) (10000 - 0) = 10000 from by norm_num]
    rw [show (50000:ℚ) - 10000 = 40000 from by norm_num]
    rw [e2]
    norm_num [hq0, hq10000, hq9, hq900]
  have hti : calculate_taxable_income 60000 10000 = 50000 := by
    unfold calculate_taxable_income
    norm_num [hq50000]
  have htt : (calculate_income_tax 50000).total_tax = 13900 := by
    unfold calculate_income_tax
    rw [if_neg (by norm_num : ¬ (50000:ℚ) ≤ 0)]
    show quantize2 (bracketLoop INCOME_TAX_BRACKETS 50000 0).1 = 13900
    rw [e1]
    exact hq13900
  have hbb : (calculate_income_tax 50000).bracket_breakdown =
      [⟨0, some 10000, 9, 10000, 900⟩, ⟨10000, some 20000, 22, 10000, 2200⟩,
       ⟨20000, some 30000, 28, 10000, 2800⟩, ⟨30000, some 40000, 36, 10000, 3600⟩,
       ⟨40000, none, 44, 10000, 4400⟩] := by
    unfold calculate_income_tax
    rw [if_neg (by norm_num : ¬ (50000:ℚ) ≤ 0)]
    show (bracketLoop INCOME_TAX_BRACKETS 50000 0).2 = _
    rw [e1]
  have hsst : (calculate_social_security 60000).total_contribution = 12000 := by
    unfold calculate_social_security
    rw [if_neg (by norm_num : ¬ (60000:ℚ) ≤ 0)]
    show quantize2 (60000 * EFKA_TOTAL_RATE) = 12000
    norm_num [EFKA_TOTAL_RATE, EFKA_MAIN_RATE, EFKA_ADDITIONAL_RATE, hq12000]
  have hvat : (calculate_vat 60000).vat_amount = 14400 := by
    unfold calculate_vat
    rw [if_neg (by norm_num : ¬ (60000:ℚ) ≤ 0)]
    show quantize2 (60000 * VAT_RATE) = 14400
    norm_num [VAT_RATE, hq14400]
  have hg : ¬ (60000:ℚ) ≤ 0 := by norm_num
  unfold calculate_all_taxes
  rw [if_neg hg]
  refine ⟨hti, ?_, ?_, hsst, hvat, ?_, ?_⟩
  · show (calculate_income_tax (calculate_taxable_income 60000 10000)).total_tax = 13900
    rw [hti]
    exact htt
  · show (calculate_income_tax (calculate_taxable_income 60000 10000)).bracket_breakdown = _
    rw [hti]
    exact hbb
  · show quantize2 ((calculate_income_tax (calculate_taxable_income 60000 10000)).total_tax +
      (calculate_social_security 60000).total_contribution) = 25900
    rw [hti, htt, hsst]
    norm_num [hq25900]
  · show quantize2 (60000 -
      ((calculate_income_tax (calculate_taxable_income 60000 10000)).total_tax +
        (calculate_social_security 60000).total_contribution)) = 34100
    rw [hti, htt, hsst]
    norm_num [hq34100]

/-- C5 (amended): when gross income is at most 0, `calculate_all_taxes`
short-circuits to a result whose monetary fields are all zero, with an empty
bracket breakdown; the `gross_income` and `deductible_expenses` fields echo
the quantized inputs, and the `rate` fields of the VAT and social-security
components keep their configured percentages (24.00 and 20.00) rather than
being zero. -/
theorem claim5_zero_income_shortcircuit (g e : ℚ) (hg : g ≤ 0) :
    calculate_all_taxes g e =
      { gross_income := quantize2 g
        deductible_expenses := quantize2 e
        taxable_income := 0
        income_tax := { total_tax := 0, effective_rate := 0, bracket_breakdown := [] }
        vat := { vat_amount := 0, rate := 24 }
        social_security :=
          { total_contribution := 0
            main_insurance := 0
            additional_contributions := 0
            rate := 20 }
        total_taxes := 0
        total_obligations := 0
        net_income := 0
        effective_total_rate := 0 } := by
  have hq24 : quantize2 (24:ℚ) = 24 := by exact_mod_cast quantize2_intCast 24
  have hq20 : quantize2 (20:ℚ) = 20 := by exact_mod_cast quantize2_intCast 20
  unfold calculate_all_taxes
  rw [if_pos hg]
  unfold calculate_income_tax calculate_vat calculate_social_security
  norm_num [VAT_RATE, EFKA_TOTAL_RATE, EFKA_MAIN_RATE, EFKA_ADDITIONAL_RATE, hq24, hq20]

/-- Witness for C5 at gross income 0 and expenses 0. -/
theorem claim5_witness :
    calculate_all_taxes 0 0 =
      { gross_income := quantize2 0
        deductible_expenses := quantize2 0
        taxable_income := 0
        income_tax := { total_tax := 0, effective_rate := 0, bracket_breakdown := [] }
        vat := { vat_amount := 0, rate := 24 }
        social_security :=
          { total_contribution := 0
            main_insurance := 0
            additional_contributions := 0
            rate := 20 }
        total_taxes := 0
        total_obligations := 0
        net_income := 0
        effective_total_rate := 0 } :=
  claim5_zero_income_shortcircuit 0 0 le_rfl

/-- C5 counterexample: `calculate_all_taxes 0 0` does not have all fields
zero: the `rate` field of its VAT component is 24.00, not 0. -/
theorem claim5_counterexample : (calculate_all_taxes 0 0).vat.rate ≠ 0 := by
  have hq24 : quantize2 (24:ℚ) = 24 := by exact_mod_cast quantize2_intCast 24
  unfold calculate_all_taxes
  rw [if_pos le_rfl]
  show (calculate_vat 0).rate ≠ 0
  unfold calculate_vat
  norm_num [VAT_RATE, hq24]

/-- C8: for every gross income > 0, `calculate_social_security` computes the
total contribution directly from the combined 20% rate (rounded to 2
decimals) rather than summing the two rounded parts, and the sum
`main_insurance + additional_contributions` differs from `total_contribution`
by at most 0.01. -/
theorem claim8_social_security_rounding (g : ℚ) (hg : 0 < g) :
    (calculate_social_security g).total_contribution = quantize2 (g * EFKA_TOTAL_RATE) ∧
    |(calculate_social_security g).main_insurance +
        (calculate_social_security g).additional_contributions -
        (calculate_social_security g).total_contribution| ≤ 1/100 := by
  have hn : ¬ g ≤ 0 := not_le.mpr hg
  unfold calculate_social_security
  rw [if_neg hn]
  refine ⟨rfl, ?_⟩
  show |quantize2 (g * EFKA_MAIN_RATE) + quantize2 (g * EFKA_ADDITIONAL_RATE) -
    quantize2 (g * EFKA_TOTAL_RATE)| ≤ 1/100
  have hsum : g * EFKA_TOTAL_RATE = g * EFKA_MAIN_RATE + g * EFKA_ADDITIONAL_RATE := by
    unfold EFKA_TOTAL_RATE
    ring
  rw [hsum]
  exact quantize2_add_sub_bound (g * EFKA_MAIN_RATE) (g * EFKA_ADDITIONAL_RATE)
    (mul_nonneg hg.le (by norm_num [EFKA_MAIN_RATE]))
    (mul_nonneg hg.le (by norm_num [EFKA_ADDITIONAL_RATE]))

/-- Witness for C8 at gross income 50 (where the two rounded parts sum to
10.01 while the total contribution is 10.00). -/
theorem claim8_witness :
    0 < (50:ℚ) ∧
      ((calculate_social_security 50).total_contribution = quantize2 (50 * EFKA_TOTAL_RATE) ∧
        |(calculate_social_security 50).main_insurance +
            (calculate_social_security 50).additional_contributions -
            (calculate_social_security 50).total_contribution| ≤ 1/100) :=
  ⟨by norm_num, claim8_social_security_rounding 50 (by norm_num)⟩

/-- C6: for every annual total ≥ 0 and valid frequency, the schedule returned
by `calculate_payment_schedule` satisfies
`|number_of_installments × installment_amount − annual_total| ≤
 number_of_installments × 0.005`, where the installment amount is the annual
total divided by the installment count, rounded half-up to two decimals, with
no remainder redistribution. -/
theorem claim6_schedule_partition (a : ℚ) (f : String) (h0 : 0 ≤ a)
    (hmem : strLower f ∈ VALID_FREQUENCIES) :
    ∃ s, calculate_payment_schedule a f = Except.ok s ∧
      |(s.number_of_installments : ℚ) * s.installment_amount - a| ≤
        (s.number_of_installments : ℚ) * (1/200) := by
  have hcl : ¬ a < 0 := not_lt.mpr h0
  refine ⟨{ annual_total := quantize2 a
            frequency := strLower f
            number_of_installments := paymentsPerYear (strLower f)
            installment_amount := quantize2 (a / (paymentsPerYear (strLower f) : ℚ))
            schedule := (List.range (paymentsPerYear (strLower f))).map
              (fun i => { period_number := i + 1
                          payment_amount :=
                            quantize2 (a / (paymentsPerYear (strLower f) : ℚ)) }) },
    ?_, ?_⟩
  · simp only [calculate_payment_schedule, if_neg hcl, if_pos hmem]
  · show |(paymentsPerYear (strLower f) : ℚ) *
        quantize2 (a / (paymentsPerYear (strLower f) : ℚ)) - a| ≤
      (paymentsPerYear (strLower f) : ℚ) * (1/200)
    set n : ℚ := (paymentsPerYear (strLower f) : ℚ) with hn
    have hnpos : 0 < n := by
      rw [hn]
      unfold paymentsPerYear
      split_ifs <;> norm_num
    have habs := abs_quantize2_sub_nonneg (a / n) (div_nonneg h0 hnpos.le)
    have hdist : n * (quantize2 (a / n) - a / n) = n * quantize2 (a / n) - a := by
      field_simp
      ring
    calc |n * quantize2 (a / n) - a|
        = |n * (quantize2 (a / n) - a / n)| := by rw [hdist]
      _ = |n| * |quantize2 (a / n) - a / n| := abs_mul _ _
      _ = n * |quantize2 (a / n) - a / n| := by rw [abs_of_pos hnpos]
      _ ≤ n * (1/200) := mul_le_mul_of_nonneg_left habs hnpos.le

/-- Witness for C6 at annual total 100 with monthly frequency. -/
theorem claim6_witness :
    0 ≤ (100:ℚ) ∧ strLower "monthly" ∈ VALID_FREQUENCIES ∧
      ∃ s, calculate_payment_schedule 100 "monthly" = Except.ok s ∧
        |(s.number_of_installments : ℚ) * s.installment_amount - 100| ≤
          (s.number_of_installments : ℚ) * (1/200) :=
  ⟨by norm_num, by decide,
    claim6_schedule_partition 100 "monthly" (by norm_num) (by decide)⟩

/-- C7: `calculate_payment_schedule` raises an error if and only if the
lower-cased frequency is not one of monthly/quarterly/annual, and the error
message names the valid set; a negative annual total is never an error: it is
clamped to 0 and a complete schedule (one installment record per
installment) is still returned. -/
theorem claim7_frequency_error_handling (a : ℚ) (f : String) :
    (calculate_payment_schedule a f = Except.error (invalidFrequencyMessage f) ↔
      strLower f ∉ VALID_FREQUENCIES) ∧
    (strLower f ∈ VALID_FREQUENCIES → ∃ s, calculate_payment_schedule a f = Except.ok s) ∧
    (a < 0 → strLower f ∈ VALID_FREQUENCIES →
      ∃ s, calculate_payment_schedule a f = Except.ok s ∧ s.annual_total = 0 ∧
        s.installment_amount = 0 ∧ s.schedule.length = s.number_of_installments) := by
  have hq0 : quantize2 (0:ℚ) = 0 := CentMult.quantize2_eq ⟨0, by norm_num⟩
  by_cases hmem : strLower f ∈ VALID_FREQUENCIES
  · refine ⟨⟨?_, fun hnot => absurd hmem hnot⟩, ?_, ?_⟩
    · intro herr
      rw [calculate_payment_schedule] at herr
      simp only [if_pos hmem] at herr
      exact Except.noConfusion herr
    · intro _
      refine ⟨{ annual_total := quantize2 (if a < 0 then 0 else a)
                frequency := strLower f
                number_of_installments := paymentsPerYear (strLower f)
                installment_amount :=
                  quantize2 ((if a < 0 then 0 else a) / (paymentsPerYear (strLower f) : ℚ))
                schedule := (List.range (paymentsPerYear (strLower f))).map
                  (fun i => { period_number := i + 1
                              payment_amount :=
                                quantize2 ((if a < 0 then 0 else a) /
                                  (paymentsPerYear (strLower f) : ℚ)) }) }, ?_⟩
      simp only [calculate_payment_schedule, if_pos hmem]
    · intro ha _
      refine ⟨{ annual_total := quantize2 0
                frequency := strLower f
                number_of_installments := paymentsPerYear (strLower f)
                installment_amount := quantize2 (0 / (paymentsPerYear (strLower f) : ℚ))
                schedule := (List.range (paymentsPerYear (strLower f))).map
                  (fun i => { period_number := i + 1
                              payment_amount :=
                                quantize2 (0 / (paymentsPerYear (strLower f) : ℚ)) }) },
        ?_, ?_, ?_, ?_⟩
      · simp only [calculate_payment_schedule, if_pos ha, if_pos hmem]
      · exact hq0
      · show quantize2 (0 / (paymentsPerYear (strLower f) : ℚ)) = 0
        rw [zero_div]
        exact hq0
      · simp
  · have herr : calculate_payment_schedule a f =
        Except.error (invalidFrequencyMessage f) := by
      simp only [calculate_payment_schedule, if_neg hmem]
    exact ⟨⟨fun _ => hmem, fun _ => herr⟩,
      fun hm => absurd hm hmem, fun _ hm => absurd hm hmem⟩

/-- Witness for C7: the frequency string `weekly` is rejected with the
message naming the valid set, while a negative annual total with valid
frequency `MONTHLY` still yields a complete zero schedule. -/
theorem claim7_witness :
    (calculate_payment_schedule (-5) "weekly" =
        Except.error (invalidFrequencyMessage "weekly")) ∧
    (∃ s, calculate_payment_schedule (-5) "MONTHLY" = Except.ok s ∧ s.annual_total = 0 ∧
      s.installment_amount = 0 ∧ s.schedule.length = s.number_of_installments) :=
  ⟨((claim7_frequency_error_handling (-5) "weekly").1).mpr (by decide),
    (claim7_frequency_error_handling (-5) "MONTHLY").2.2 (by norm_num) (by decide)⟩

/-- C10: for every accepted frequency string, regardless of letter case, the
`frequency` field stored in the returned schedule is the lower-cased form, so
callers always receive one of exactly `monthly`, `quarterly`, `annual`. -/
theorem claim10_frequency_lowercased (a : ℚ) (f : String)
    (hmem : strLower f ∈ VALID_FREQUENCIES) :
    ∃ s, calculate_payment_schedule a f = Except.ok s ∧ s.frequency = strLower f ∧
      s.frequency ∈ VALID_FREQUENCIES := by
  refine ⟨{ annual_total := quantize2 (if a < 0 then 0 else a)
            frequency := strLower f
            number_of_installments := paymentsPerYear (strLower f)
            installment_amount :=
              quantize2 ((if a < 0 then 0 else a) / (paymentsPerYear (strLower f) : ℚ))
            schedule := (List.range (paymentsPerYear (strLower f))).map
              (fun i => { period_number := i + 1
                          payment_amount :=
                            quantize2 ((if a < 0 then 0 else a) /
                              (paymentsPerYear (strLower f) : ℚ)) }) },
    ?_, rfl, hmem⟩
  simp only [calculate_payment_schedule, if_pos hmem]

/-- Witness for C10 at the upper-case frequency string `MONTHLY`. -/
theorem claim10_witness :
    strLower "MONTHLY" ∈ VALID_FREQUENCIES ∧
      ∃ s, calculate_payment_schedule 100 "MONTHLY" = Except.ok s ∧
        s.frequency = strLower "MONTHLY" ∧ s.frequency ∈ VALID_FREQUENCIES :=
  ⟨by decide, claim10_frequency_lowercased 100 "MONTHLY" (by decide)⟩

end TaxCalc
